import Mathlib

/-!
Verification development for a natural-language -> Kubernetes-query pipeline
(src/main.py).  The pipeline has three stages: command synthesis via a
language model (`generate_kubernetes_command`), direct execution of the
synthesized text (`execute_generated_command`), and summarization of the raw
result (`format_result_with_gpt`), sequenced by the HTTP handler
(`create_query`).

The embedding has two layers:
* a text layer, modelling the string manipulations the source performs
  (Python `str.replace`, `str.strip`, the substring operator `in`);
* a semantic layer, modelling what `exec(command, globals(), local_vars)`
  does to the restricted commands this pipeline handles: a sequence of
  client-method calls, assignments and raised exceptions, run against an
  abstract gateway (the `v1` Kubernetes client object).
-/

/-- The backtick character, used in code fences. -/
def bt : Char := Char.ofNat 96

/-- The three-backtick code-fence marker. -/
def fence3 : List Char := [bt, bt, bt]

/-- The python-annotated opening fence marker. -/
def pyFence : List Char := fence3 ++ "python".data

/-- Python `str.replace(pat, "")` for a fixed nonempty pattern: scan left to
right; when `pat` matches at the current position, drop it and continue after
it, otherwise keep one character and advance.  Implemented with a fuel
argument equal to the input length so that the definition is structurally
recursive; each step consumes at least one character, so the fuel never runs
out for nonempty patterns. -/
def removePatAux (pat : List Char) : Nat → List Char → List Char
  | _, [] => []
  | 0, s => s
  | fuel + 1, c :: cs =>
    if pat.isPrefixOf (c :: cs) then removePatAux pat fuel (cs.drop (pat.length - 1))
    else c :: removePatAux pat fuel cs

/-- Python `s.replace(pat, "")`. -/
def removePat (pat s : List Char) : List Char := removePatAux pat s.length s

/-- Python `s.replace("x60x60x60", "")` (three backticks): on a
triple-backtick match skip all three characters, otherwise emit one character
and continue.  Fuel-indexed for structural recursion; fuel equal to the input
length always suffices. -/
def removeTripleAux : Nat → List Char → List Char
  | _, [] => []
  | 0, s => s
  | fuel + 1, a :: rest =>
    match rest with
    | b :: c :: rest2 =>
      if a = bt ∧ b = bt ∧ c = bt then removeTripleAux fuel rest2
      else a :: removeTripleAux fuel rest
    | _ => a :: removeTripleAux fuel rest

/-- Python `s.replace("x60x60x60", "")` (three backticks). -/
def removeTriple (s : List Char) : List Char := removeTripleAux s.length s

/-- Python `str.strip()`: drop whitespace from both ends. -/
def pyStrip (s : List Char) : List Char :=
  ((s.dropWhile Char.isWhitespace).reverse.dropWhile Char.isWhitespace).reverse

/-- Python `pat in s` for strings: `pat` occurs as a contiguous substring. -/
def hasSub (pat : List Char) : List Char → Bool
  | [] => pat.isEmpty
  | c :: cs => pat.isPrefixOf (c :: cs) || hasSub pat cs

/-- The cleaning applied to the synthesized command before execution
(src/main.py line 101):
`command.replace("x60x60x60python", "").replace("x60x60x60", "").strip()`. -/
def cleanCommand (s : List Char) : List Char :=
  pyStrip (removeTriple (removePat pyFence s))

/-- Raw values the executed command can produce: per the source, the result
stored in `result` (and the values the gateway returns) are strings or lists
of strings. -/
inductive Value
  | str (s : List Char)
  | strList (l : List (List Char))
deriving DecidableEq

/-- Python `"Error" in raw_result` (src/main.py line 164) and
`"Error" in answer` (line 170): substring test on a string, membership test
on a list. -/
def errChars : List Char := "Error".data

/-- Python `"Error" in v` for the two value shapes. -/
def containsError : Value → Bool
  | .str s => hasSub errChars s
  | .strList l => l.contains errChars

/-- Abstract model of the `v1` Kubernetes client object together with the
spec-side CapabilitySet and timing data.  `σ` is the abstract cluster state.
`capabilities` is the enumerated spec-side list of permitted read operations;
`hasMethod` says which attributes the client object actually exposes (a call
on a missing attribute raises `AttributeError`); `run` is the effect and
return value of invoking a client method; `duration` and `deadline` record
how long each call takes and the configured deadline, so that timing claims
can be stated. -/
structure GatewayModel (σ : Type) where
  capabilities : List (List Char)
  hasMethod : List Char → Bool
  run : List Char → List (List Char) → σ → Value × σ
  duration : List Char → Nat
  deadline : Nat

/-- One statement of the restricted single-expression commands the pipeline
handles, as interpreted by `exec(command, globals(), local_vars)`:
an assignment of a client-method call, an assignment of a computed value, a
bare client-method call, or a statement raising an exception. -/
inductive Stmt
  | assignCall (target : List Char) (method : List Char) (args : List (List Char))
  | assignLit (target : List Char) (v : Value)
  | exprCall (method : List Char) (args : List (List Char))
  | raiseMsg (msg : List Char)
deriving DecidableEq

/-- A command is the sequence of statements `exec` runs. -/
abbrev Cmd := List Stmt

/-- The name of the designated output binding. -/
def resultVar : List Char := "result".data

/-- Interpreter state while `exec` runs: the `local_vars` dictionary, the
abstract cluster state behind the client, and how many gateway calls have
been made (the call-counting stub gateway of the testable properties in the spec). -/
structure ExecState (σ : Type) where
  locals : List (List Char × Value)
  cluster : σ
  gatewayCalls : Nat
deriving DecidableEq

/-- Exceptions the modelled statements can raise. -/
inductive PyError
  | attr (method : List Char)
  | exc (msg : List Char)
deriving DecidableEq

/-- Fresh interpreter state: `local_vars = {}` (src/main.py line 100). -/
def initState (c : σ) : ExecState σ :=
  { locals := [], cluster := c, gatewayCalls := 0 }

/-- Update the `local_vars` dictionary. -/
def setLocal (ls : List (List Char × Value)) (x : List Char) (v : Value) :
    List (List Char × Value) :=
  (x, v) :: ls

/-- Python `local_vars.get(x)`. -/
def getLocal (ls : List (List Char × Value)) (x : List Char) : Option Value :=
  (ls.find? (fun p => p.1 == x)).map (fun p => p.2)

/-- Run one statement.  A call on a method the client does not expose raises
`AttributeError`; otherwise the gateway is invoked (the call counter
increases) and the cluster state advances.  No capability check of any kind
happens here: the source line is a bare `exec`. -/
def runStmt (gw : GatewayModel σ) (st : ExecState σ) :
    Stmt → ExecState σ × Option PyError
  | .assignCall x m args =>
    if gw.hasMethod m then
      ({ locals := setLocal st.locals x (gw.run m args st.cluster).1
         cluster := (gw.run m args st.cluster).2
         gatewayCalls := st.gatewayCalls + 1 }, none)
    else (st, some (.attr m))
  | .assignLit x v =>
    ({ st with locals := setLocal st.locals x v }, none)
  | .exprCall m args =>
    if gw.hasMethod m then
      ({ st with
         cluster := (gw.run m args st.cluster).2
         gatewayCalls := st.gatewayCalls + 1 }, none)
    else (st, some (.attr m))
  | .raiseMsg msg => (st, some (.exc msg))

/-- Run a command: statements in order, stopping at the first exception. -/
def runCmd (gw : GatewayModel σ) (st : ExecState σ) : Cmd → ExecState σ × Option PyError
  | [] => (st, none)
  | s :: rest =>
    match runStmt gw st s with
    | (st2, none) => runCmd gw st2 rest
    | (st2, some e) => (st2, some e)

/-- What `execute_generated_command` returns, together with the resulting
cluster state and the number of gateway calls made. -/
structure ExecOutcome (σ : Type) where
  value : Value
  cluster : σ
  gatewayCalls : Nat
deriving DecidableEq

/-- Fixed return string for a missing/empty command (src/main.py line 98). -/
def noCommandMsg : List Char := "No command generated.".data

/-- Default when the `result` binding was never set (line 106). -/
def noResultMsg : List Char := "No result returned".data

/-- Fixed return string of the `AttributeError` handler (line 111). -/
def attrErrMsg : List Char := "Kubernetes client method not supported on Minikube.".data

/-- Message head of the generic exception handler (line 114). -/
def errExecHead : List Char := "Error executing command: ".data

/-- Semantic model of `execute_generated_command` (src/main.py lines
100-114) on an already parsed command: run the statements via `exec`; on
normal completion return the result binding, defaulting to "No result returned";
map `AttributeError` to a fixed string and any other exception to
`"Error executing command: " + str(e)`.  Side effects performed before an
exception persist. -/
def execute_generated_command (gw : GatewayModel σ) (c : σ) (cmd : Cmd) :
    ExecOutcome σ :=
  match runCmd gw (initState c) cmd with
  | (st, none) =>
    { value := (getLocal st.locals resultVar).getD (.str noResultMsg),
      cluster := st.cluster, gatewayCalls := st.gatewayCalls }
  | (st, some (.attr _)) =>
    { value := .str attrErrMsg, cluster := st.cluster, gatewayCalls := st.gatewayCalls }
  | (st, some (.exc m)) =>
    { value := .str (errExecHead ++ m), cluster := st.cluster, gatewayCalls := st.gatewayCalls }

/-- Text-layer front of `execute_generated_command` (lines 96-102): a falsy
command (`None` or the empty string) returns the fixed string immediately,
before any cleaning or evaluation; otherwise the fence markers are stripped
and the cleaned text is what `exec` receives. -/
inductive ExecDispatch
  | noCommand
  | runCleaned (cleaned : List Char)
deriving DecidableEq

/-- Which of the two paths of `execute_generated_command` the input text
takes (lines 96-102). -/
def execute_generated_command_text : Option (List Char) → ExecDispatch
  | none => .noCommand
  | some s => if s.isEmpty then .noCommand else .runCleaned (cleanCommand s)

/-- Model of `generate_kubernetes_command` (src/main.py lines 52-90): the
language-model call is an oracle from the query to the completion content
(`none` when the API call raises); the function strips the content and
returns it, or returns `None` on an exception. -/
def generate_kubernetes_command (llm : List Char → Option (List Char))
    (query : List Char) : Option (List Char) :=
  (llm query).map pyStrip

/-- Fixed return string of the summarizer exception handler (line 142). -/
def formatErrMsg : List Char := "Error formatting answer.".data

/-- Model of `format_result_with_gpt` (lines 116-142): the language-model
call is an oracle from the query and raw result to the completion content
(`none` when the API call raises); the function strips the content, or
returns the fixed error string on an exception. -/
def format_result_with_gpt (llm2 : List Char → Value → Option (List Char))
    (query : List Char) (result : Value) : List Char :=
  match llm2 query result with
  | some content => pyStrip content
  | none => formatErrMsg

/-- HTTP responses `create_query` can produce: a 200 with the
`QueryResponse` pair, or an error payload with a status code. -/
inductive HttpResp
  | ok (query : List Char) (answer : List Char)
  | err (code : Nat) (payload : Value)
deriving DecidableEq

/-- Result of one `create_query` request: the response plus the resulting
cluster state and how many calls were made to the synthesis model, the
gateway, and the summarization model. -/
structure PipeResult (σ : Type) where
  resp : HttpResp
  cluster : σ
  synthCalls : Nat
  gatewayCalls : Nat
  summCalls : Nat
deriving DecidableEq

/-- Error payload for a missing/empty query (line 152). -/
def noQueryMsg : List Char := "No query provided".data

/-- Error payload when synthesis fails (line 160). -/
def genFailMsg : List Char := "Failed to generate command".data

/-- Model of the `/query` handler `create_query` (src/main.py lines
144-182).  `parse` is how `exec` reads the cleaned command text as a
sequence of statements.  Steps: reject a falsy query with 400; synthesize a
command (one synthesis call) and reject a falsy command with 500; execute
the cleaned command; if the raw result contains the substring `"Error"`
(membership for list results) answer 500 with the raw result; otherwise
summarize (one summarization call); if the answer contains `"Error"` answer
500 with it; otherwise answer 200 with the query/answer pair. -/
def create_query (gw : GatewayModel σ) (c : σ)
    (llm : List Char → Option (List Char))
    (llm2 : List Char → Value → Option (List Char))
    (parse : List Char → Cmd)
    (query : Option (List Char)) : PipeResult σ :=
  match query with
  | none => { resp := .err 400 (.str noQueryMsg), cluster := c, synthCalls := 0, gatewayCalls := 0, summCalls := 0 }
  | some q =>
    if q.isEmpty then
      { resp := .err 400 (.str noQueryMsg), cluster := c, synthCalls := 0, gatewayCalls := 0, summCalls := 0 }
    else
      match generate_kubernetes_command llm q with
      | none => { resp := .err 500 (.str genFailMsg), cluster := c, synthCalls := 1, gatewayCalls := 0, summCalls := 0 }
      | some command =>
        if command.isEmpty then
          { resp := .err 500 (.str genFailMsg), cluster := c, synthCalls := 1, gatewayCalls := 0, summCalls := 0 }
        else
          match execute_generated_command gw c (parse (cleanCommand command)) with
          | raw =>
            if containsError raw.value then
              { resp := .err 500 raw.value, cluster := raw.cluster, synthCalls := 1, gatewayCalls := raw.gatewayCalls, summCalls := 0 }
            else
              match format_result_with_gpt llm2 q raw.value with
              | answer =>
                if hasSub errChars answer then
                  { resp := .err 500 (.str answer), cluster := raw.cluster, synthCalls := 1, gatewayCalls := raw.gatewayCalls, summCalls := 1 }
                else
                  { resp := .ok q answer, cluster := raw.cluster, synthCalls := 1, gatewayCalls := raw.gatewayCalls, summCalls := 1 }

/-- A singleton list is returned unchanged by the triple-removal scan. -/
lemma removeTripleAux_single (f : Nat) (b : Char) : removeTripleAux f [b] = [b] := by
  cases f <;> simp [removeTripleAux]

/-- If the triple-removal output starts with a backtick, so does its input. -/
lemma removeTripleAux_bt_head (f : Nat) (l t : List Char)
    (h : removeTripleAux f l = bt :: t) : ∃ r, l = bt :: r := by
  cases l with
  | nil => simp [removeTripleAux] at h
  | cons a rest =>
    cases f with
    | zero =>
      simp only [removeTripleAux] at h
      injection h with h1 _
      exact ⟨rest, by rw [h1]⟩
    | succ f =>
      cases rest with
      | nil =>
        simp only [removeTripleAux] at h
        injection h with h1 _
        exact ⟨[], by rw [h1]⟩
      | cons b rest' =>
        cases rest' with
        | nil =>
          simp only [removeTripleAux, removeTripleAux_single] at h
          injection h with h1 _
          exact ⟨[b], by rw [h1]⟩
        | cons c rest2 =>
          simp only [removeTripleAux] at h
          by_cases htr : a = bt ∧ b = bt ∧ c = bt
          · exact ⟨b :: c :: rest2, by rw [htr.1]⟩
          · rw [if_neg htr] at h
            injection h with h1 _
            exact ⟨b :: c :: rest2, by rw [h1]⟩

/-- If the triple-removal output starts with two backticks, so does its
input. -/
lemma removeTripleAux_bt2_head (f : Nat) (l t : List Char)
    (h : removeTripleAux f l = bt :: bt :: t) : ∃ r, l = bt :: bt :: r := by
  cases l with
  | nil => simp [removeTripleAux] at h
  | cons a rest =>
    cases f with
    | zero =>
      simp only [removeTripleAux] at h
      injection h with h1 h2
      exact ⟨t, by rw [h1, h2]⟩
    | succ f =>
      cases rest with
      | nil =>
        simp only [removeTripleAux] at h
        injection h with _ h2
        simp [removeTripleAux] at h2
      | cons b rest' =>
        cases rest' with
        | nil =>
          simp only [removeTripleAux, removeTripleAux_single] at h
          injection h with h1 h2
          injection h2 with h2 h3
          exact ⟨[], by rw [h1, h2]⟩
        | cons c rest2 =>
          simp only [removeTripleAux] at h
          by_cases htr : a = bt ∧ b = bt ∧ c = bt
          · exact ⟨c :: rest2, by rw [htr.1, htr.2.1]⟩
          · rw [if_neg htr] at h
            injection h with h1 h2
            obtain ⟨r, hr⟩ := removeTripleAux_bt_head f (b :: c :: rest2) t h2
            injection hr with hb hcr
            exact ⟨r, by rw [h1, hb, hcr]⟩

/-- Decompose an occurrence inside a cons: the pattern is a prefix of the
whole list, or occurs inside the tail. -/
lemma inside_cons_cases {α : Type} {p l : List α} {a : α}
    (h : p <:+: a :: l) : p <+: a :: l ∨ p <:+: l := by
  obtain ⟨s, t, hst⟩ := h
  cases s with
  | nil => exact Or.inl ⟨t, by simpa using hst⟩
  | cons x s' =>
    right
    rw [List.cons_append, List.cons_append] at hst
    injection hst with _ h2
    exact ⟨s', t, h2⟩

/-- A prefix occurs inside the list. -/
lemma prefix_to_inside {α : Type} {p l : List α} (h : p <+: l) : p <:+: l := by
  obtain ⟨t, ht⟩ := h
  exact ⟨[], t, by simpa using ht⟩

/-- A suffix occurs inside the list. -/
lemma suffix_to_inside {α : Type} {p l : List α} (h : p <:+ l) : p <:+: l := by
  obtain ⟨u, hu⟩ := h
  exact ⟨u, [], by simp [hu]⟩

/-- The output of the triple-backtick removal scan never contains the
three-backtick marker, provided the fuel covers the input. -/
lemma removeTripleAux_no_fence : ∀ (f : Nat) (l : List Char), l.length ≤ f →
    ¬ fence3 <:+: removeTripleAux f l := by
  intro f
  induction f with
  | zero =>
    intro l hl h
    have hnil : l = [] := List.eq_nil_of_length_eq_zero (Nat.le_zero.mp hl)
    subst hnil
    have := h.length_le
    simp [removeTripleAux, fence3] at this
  | succ f ih =>
    intro l hl
    cases l with
    | nil =>
      intro h
      have := h.length_le
      simp [removeTripleAux, fence3] at this
    | cons a rest =>
      cases rest with
      | nil =>
        intro h
        have := h.length_le
        simp [removeTripleAux_single, fence3] at this
      | cons b rest' =>
        cases rest' with
        | nil =>
          intro h
          have := h.length_le
          simp [removeTripleAux, removeTripleAux_single, fence3] at this
        | cons c rest2 =>
          by_cases htr : a = bt ∧ b = bt ∧ c = bt
          · have heq : removeTripleAux (f + 1) (a :: b :: c :: rest2) = removeTripleAux f rest2 := by
              simp [removeTripleAux, htr]
            rw [heq]
            apply ih
            simp at hl ⊢
            omega
          · have heq : removeTripleAux (f + 1) (a :: b :: c :: rest2)
                = a :: removeTripleAux f (b :: c :: rest2) := by
              simp only [removeTripleAux, if_neg htr]
            rw [heq]
            intro h
            rcases inside_cons_cases h with hp | hi
            · have hp' : bt :: bt :: [bt] <+: a :: removeTripleAux f (b :: c :: rest2) := hp
              rw [List.cons_prefix_cons] at hp'
              obtain ⟨ha, hp2⟩ := hp'
              obtain ⟨tt, htt⟩ := hp2
              have hx : removeTripleAux f (b :: c :: rest2) = bt :: bt :: tt := by
                simpa using htt.symm
              obtain ⟨r, hr⟩ := removeTripleAux_bt2_head f _ tt hx
              injection hr with hb hr2
              injection hr2 with hc _
              exact htr ⟨ha.symm, hb, hc⟩
            · exact ih _ (by simp at hl ⊢; omega) hi

/-- The cleaned command text is a contiguous part of the text before
stripping. -/
lemma pyStrip_inside (l : List Char) : pyStrip l <:+: l := by
  have h1 : l.dropWhile Char.isWhitespace <:+ l := List.dropWhile_suffix _
  have h2 : (l.dropWhile Char.isWhitespace).reverse.dropWhile Char.isWhitespace <:+
      (l.dropWhile Char.isWhitespace).reverse := List.dropWhile_suffix _
  have h3 : ((l.dropWhile Char.isWhitespace).reverse.dropWhile Char.isWhitespace).reverse <+:
      l.dropWhile Char.isWhitespace := by
    have := ( List.reverse_prefix).mpr h2
    simpa using this
  exact (prefix_to_inside h3).trans (suffix_to_inside h1)

/-- The substring test agrees with contiguous-occurrence. -/
lemma hasSub_iff (pat l : List Char) : hasSub pat l = true ↔ pat <:+: l := by
  induction l with
  | nil =>
    simp only [hasSub, List.isEmpty_iff]
    constructor
    · rintro rfl
      exact ⟨[], [], rfl⟩
    · intro h
      have := h.length_le
      exact List.eq_nil_of_length_eq_zero (Nat.le_zero.mp this)
  | cons c cs ih =>
    simp only [hasSub, Bool.or_eq_true, ih,  List.isPrefixOf_iff_prefix]
    constructor
    · rintro (hp | hi)
      · exact prefix_to_inside hp
      · exact hi.trans (suffix_to_inside (List.suffix_cons c cs))
    · intro h
      rcases inside_cons_cases h with hp | hi
      · exact Or.inl hp
      · exact Or.inr hi

/-- C8: every synthesized command string has code-fence markup stripped
before the expression is used: after the two replace calls and the strip of
src/main.py line 101, the text handed to exec contains neither the
three-backtick marker nor the three-backtick-python marker. -/
theorem cleaned_command_has_no_fences (s : List Char) :
    hasSub fence3 (cleanCommand s) = false ∧ hasSub pyFence (cleanCommand s) = false := by
  have hno : ¬ fence3 <:+: cleanCommand s := by
    intro h
    have h2 : fence3 <:+: removeTriple (removePat pyFence s) := h.trans (pyStrip_inside _)
    exact removeTripleAux_no_fence _ _ le_rfl h2
  constructor
  · rw [Bool.eq_false_iff]
    intro h
    exact hno ((hasSub_iff _ _).mp h)
  · rw [Bool.eq_false_iff]
    intro h
    have hpy : pyFence <:+: cleanCommand s := (hasSub_iff _ _).mp h
    have hf : fence3 <+: pyFence := ⟨"python".data, rfl⟩
    exact hno ((prefix_to_inside hf).trans hpy)

/-- A single interpreter step consults only which methods the client object
exposes and what they do: the spec-side capability list, the call durations
and the configured deadline never influence it. -/
lemma runStmt_congr (gw gw' : GatewayModel σ)
    (hm : gw'.hasMethod = gw.hasMethod) (hr : gw'.run = gw.run)
    (st : ExecState σ) (s : Stmt) : runStmt gw' st s = runStmt gw st s := by
  cases s <;> simp [runStmt, hm, hr]

/-- Same for whole commands. -/
lemma runCmd_congr (gw gw' : GatewayModel σ)
    (hm : gw'.hasMethod = gw.hasMethod) (hr : gw'.run = gw.run) :
    ∀ (cmd : Cmd) (st : ExecState σ), runCmd gw' st cmd = runCmd gw st cmd := by
  intro cmd
  induction cmd with
  | nil => intro st; rfl
  | cons s rest ih =>
    intro st
    simp only [runCmd, runStmt_congr gw gw' hm hr]
    rcases hstep : runStmt gw st s with ⟨st2, e⟩
    cases e with
    | none => exact ih st2
    | some e' => rfl

/-- Same for the executor. -/
lemma execute_congr (gw gw' : GatewayModel σ)
    (hm : gw'.hasMethod = gw.hasMethod) (hr : gw'.run = gw.run)
    (c : σ) (cmd : Cmd) :
    execute_generated_command gw' c cmd = execute_generated_command gw c cmd := by
  simp [execute_generated_command, runCmd_congr gw gw' hm hr]

/-- C1 amended: the Executor performs no capability validation.  Its outcome
is independent of the CapabilitySet, and a command whose operation lies
outside the CapabilitySet is nevertheless executed whenever the client
exposes the method: the gateway is invoked (one call) and the value of the call
is stored and returned; no DisallowedOperation-style failure exists. -/
theorem executor_has_no_capability_validation {σ : Type} (gw : GatewayModel σ)
    (caps : List (List Char)) (c : σ) (cmd : Cmd)
    (m : List Char) (args : List (List Char))
    (hcap : ¬ m ∈ gw.capabilities) (hm : gw.hasMethod m = true) :
    execute_generated_command { gw with capabilities := caps } c cmd =
      execute_generated_command gw c cmd ∧
    (execute_generated_command gw c [Stmt.assignCall resultVar m args]).gatewayCalls = 1 ∧
    (execute_generated_command gw c [Stmt.assignCall resultVar m args]).value =
      (gw.run m args c).1 := by
  refine ⟨execute_congr gw { gw with capabilities := caps } rfl rfl c cmd, ?_, ?_⟩ <;>
    simp [execute_generated_command, runCmd, runStmt, hm, initState, setLocal, getLocal]

/-- A concrete gateway whose capability set lists only the read operation
`list_namespace`, while the client object also exposes the mutating method
`delete_namespaced_pod` (calling it advances the cluster state). -/
def gwDelete : GatewayModel Nat :=
  { capabilities := ["list_namespace".data]
    hasMethod := fun m => m == "list_namespace".data || m == "delete_namespaced_pod".data
    run := fun m _ s =>
      if m == "delete_namespaced_pod".data then (.str ("deleted".data), s + 1)
      else (.str ("ns".data), s)
    duration := fun _ => 0
    deadline := 10 }

/-- A synthesized command invoking the delete operation. -/
def deleteCmd : Cmd :=
  [Stmt.assignCall resultVar ("delete_namespaced_pod".data) ["mongodb".data, "default".data]]

/-- C1 witness: at the concrete gateway, the delete operation is outside the
capability set and exposed by the client, and the executor runs it. -/
theorem executor_has_no_capability_validation_witness :
    execute_generated_command { gwDelete with capabilities := [] } 0 deleteCmd =
      execute_generated_command gwDelete 0 deleteCmd ∧
    (execute_generated_command gwDelete 0 deleteCmd).gatewayCalls = 1 ∧
    (execute_generated_command gwDelete 0 deleteCmd).value =
      (gwDelete.run ("delete_namespaced_pod".data) ["mongodb".data, "default".data] 0).1 :=
  executor_has_no_capability_validation gwDelete [] 0 deleteCmd
    ("delete_namespaced_pod".data) ["mongodb".data, "default".data]
    (by decide) (by decide)

/-- C1 counterexample: a candidate expression referencing an operation
outside the CapabilitySet is not rejected: the gateway is invoked (call
count 1, the claim demands 0), the delete mutates the cluster state, and the
executor returns the value of the call instead of a DisallowedOperation
failure. -/
theorem disallowed_op_reaches_gateway :
    ¬ ("delete_namespaced_pod".data ∈ gwDelete.capabilities) ∧
    (execute_generated_command gwDelete 0 deleteCmd).gatewayCalls = 1 ∧
    (execute_generated_command gwDelete 0 deleteCmd).value = Value.str ("deleted".data) ∧
    (execute_generated_command gwDelete 0 deleteCmd).cluster = 1 := by
  decide

/-- C9 amended: the execution step runs under no timeout at all.  The
outcome of the executor is independent of the configured deadline and of how long
each gateway call takes; a call exceeding the deadline is not interrupted
and no Timeout failure kind exists in the code. -/
theorem executor_ignores_deadline {σ : Type} (gw : GatewayModel σ)
    (d : Nat) (f : List Char → Nat) (c : σ) (cmd : Cmd) :
    execute_generated_command { gw with deadline := d, duration := f } c cmd =
      execute_generated_command gw c cmd :=
  execute_congr gw { gw with deadline := d, duration := f } rfl rfl c cmd

/-- A concrete gateway whose only operation takes 100 time units against a
configured deadline of 1. -/
def gwSlow : GatewayModel Nat :=
  { capabilities := ["list_namespace".data]
    hasMethod := fun m => m == "list_namespace".data
    run := fun _ _ s => (.str ("ns-ok".data), s)
    duration := fun _ => 100
    deadline := 1 }

/-- The command running the slow call. -/
def slowCmd : Cmd := [Stmt.assignCall resultVar ("list_namespace".data) []]

/-- C9 counterexample: the gateway call exceeds the configured deadline, yet
the executor runs it to completion and returns the value of the call as the
outcome — not a Failure(Timeout). -/
theorem slow_call_returns_value_not_timeout :
    gwSlow.deadline < gwSlow.duration ("list_namespace".data) ∧
    (execute_generated_command gwSlow 0 slowCmd).value = Value.str ("ns-ok".data) ∧
    (execute_generated_command gwSlow 0 slowCmd).gatewayCalls = 1 := by
  decide

/-- C10: the Executor never propagates an exception.  A missing (`None`) or
empty command returns the fixed "No command generated." path before any
cleaning or evaluation, and for every command and gateway the executor
returns a value: the result binding on normal completion (defaulting to the
"No result returned" string), the fixed client-method string on
`AttributeError`, and a descriptive "Error executing command: ..." string on
any other exception. -/
theorem executor_never_raises :
    execute_generated_command_text none = ExecDispatch.noCommand ∧
    execute_generated_command_text (some []) = ExecDispatch.noCommand ∧
    ∀ (σ : Type) (gw : GatewayModel σ) (c : σ) (cmd : Cmd),
      (∃ st, runCmd gw (initState c) cmd = (st, none) ∧
        (execute_generated_command gw c cmd).value =
          (getLocal st.locals resultVar).getD (Value.str noResultMsg)) ∨
      (∃ st m, runCmd gw (initState c) cmd = (st, some (PyError.attr m)) ∧
        (execute_generated_command gw c cmd).value = Value.str attrErrMsg) ∨
      (∃ st m, runCmd gw (initState c) cmd = (st, some (PyError.exc m)) ∧
        (execute_generated_command gw c cmd).value = Value.str (errExecHead ++ m)) := by
  refine ⟨rfl, rfl, ?_⟩
  intro σ gw c cmd
  rcases hrun : runCmd gw (initState c) cmd with ⟨st, e⟩
  cases e with
  | none =>
    exact Or.inl ⟨st, rfl, by simp [execute_generated_command, hrun]⟩
  | some e' =>
    cases e' with
    | attr m =>
      exact Or.inr (Or.inl ⟨st, m, rfl, by simp [execute_generated_command, hrun]⟩)
    | exc m =>
      exact Or.inr (Or.inr ⟨st, m, rfl, by simp [execute_generated_command, hrun]⟩)

/-- C7: invoking the executor twice with the same command against an
unchanged gateway state yields identical outcomes.  The interpreter is a
pure function of the command and the cluster state, so when the first run
leaves the state unchanged the second run from that state is the identical
outcome. -/
theorem execute_idempotent_on_unchanged_state {σ : Type} (gw : GatewayModel σ)
    (c : σ) (cmd : Cmd)
    (h : (execute_generated_command gw c cmd).cluster = c) :
    execute_generated_command gw (execute_generated_command gw c cmd).cluster cmd =
      execute_generated_command gw c cmd := by
  rw [h]

/-- A concrete read-only gateway. -/
def gwRead : GatewayModel Nat :=
  { capabilities := ["list_namespace".data]
    hasMethod := fun m => m == "list_namespace".data
    run := fun _ _ s => (.str ("ns-a".data), s)
    duration := fun _ => 0
    deadline := 10 }

/-- The read command stored in the result binding. -/
def readCmd : Cmd := [Stmt.assignCall resultVar ("list_namespace".data) []]

/-- C7 witness: the concrete read-only run leaves the state unchanged and
the repeated run is identical. -/
theorem execute_idempotent_witness :
    (execute_generated_command gwRead 0 readCmd).cluster = 0 ∧
    execute_generated_command gwRead (execute_generated_command gwRead 0 readCmd).cluster readCmd =
      execute_generated_command gwRead 0 readCmd :=
  ⟨by decide, execute_idempotent_on_unchanged_state gwRead 0 readCmd (by decide)⟩

/-- C5: for a valid read operation (in the capability set, exposed by the
client) whose call returns a fixed value, the outcome of the executor is exactly
that value, untransformed, via one gateway call. -/
theorem success_value_unchanged {σ : Type} (gw : GatewayModel σ) (c c' : σ)
    (m : List Char) (args : List (List Char)) (v : Value)
    (hcap : m ∈ gw.capabilities) (hm : gw.hasMethod m = true)
    (hrun : gw.run m args c = (v, c')) :
    (execute_generated_command gw c [Stmt.assignCall resultVar m args]).value = v ∧
    (execute_generated_command gw c [Stmt.assignCall resultVar m args]).gatewayCalls = 1 := by
  simp [execute_generated_command, runCmd, runStmt, hm, initState, setLocal, getLocal, hrun]

/-- A concrete mocked gateway returning a fixed value. -/
def gwFixed : GatewayModel Nat :=
  { capabilities := ["list_namespace".data]
    hasMethod := fun m => m == "list_namespace".data
    run := fun _ _ s => (.str ("pods-3".data), s)
    duration := fun _ => 0
    deadline := 10 }

/-- C5 witness: the mocked fixed value comes back exactly. -/
theorem success_value_unchanged_witness :
    ("list_namespace".data ∈ gwFixed.capabilities) ∧
    (execute_generated_command gwFixed 0
        [Stmt.assignCall resultVar ("list_namespace".data) []]).value =
      Value.str ("pods-3".data) :=
  ⟨by decide,
   (success_value_unchanged gwFixed 0 0 ("list_namespace".data) [] (Value.str ("pods-3".data))
      (by decide) (by decide) (by decide)).1⟩

/-- C4 amended: when execution completes without the result binding ever
being set, the executor returns the plain string "No result returned" —
an untagged string value, not a distinguished failure. -/
theorem no_result_yields_sentinel_string {σ : Type} (gw : GatewayModel σ)
    (c : σ) (cmd : Cmd) (st : ExecState σ)
    (hrun : runCmd gw (initState c) cmd = (st, none))
    (hnores : getLocal st.locals resultVar = none) :
    (execute_generated_command gw c cmd).value = Value.str noResultMsg := by
  simp [execute_generated_command, hrun, hnores]

/-- A concrete gateway for the no-result runs. -/
def gwPing : GatewayModel Nat :=
  { capabilities := ["list_namespace".data]
    hasMethod := fun m => m == "list_namespace".data
    run := fun _ _ s => (.str ("ok".data), s)
    duration := fun _ => 0
    deadline := 10 }

/-- A command that calls the gateway but never sets the result binding. -/
def pingCmd : Cmd := [Stmt.exprCall ("list_namespace".data) []]

/-- C4 witness: a completed execution that never set the binding returns the
sentinel string. -/
theorem no_result_yields_sentinel_string_witness :
    runCmd gwPing (initState 0) pingCmd =
      ({ locals := [], cluster := 0, gatewayCalls := 1 }, none) ∧
    (execute_generated_command gwPing 0 pingCmd).value = Value.str noResultMsg :=
  ⟨by decide,
   no_result_yields_sentinel_string gwPing 0 pingCmd
     { locals := [], cluster := 0, gatewayCalls := 1 } (by decide) (by decide)⟩

/-- C4 counterexample: the sentinel is not a failure outcome.  An execution
that never sets the binding produces an outcome identical to a successful
execution that stores exactly that string, and the pipeline treats the
sentinel as a success: it forwards it to the summarizer and answers 200. -/
theorem no_result_indistinguishable_from_success :
    execute_generated_command gwPing 0 ([] : Cmd) =
      execute_generated_command gwPing 0 [Stmt.assignLit resultVar (Value.str noResultMsg)] ∧
    (create_query gwPing 0 (fun _ => some ("pods = v1.list_namespace()".data))
        (fun _ _ => some ("nothing came back".data)) (fun _ => ([] : Cmd))
        (some ("how many pods are there".data))).resp =
      HttpResp.ok ("how many pods are there".data) ("nothing came back".data) ∧
    (create_query gwPing 0 (fun _ => some ("pods = v1.list_namespace()".data))
        (fun _ _ => some ("nothing came back".data)) (fun _ => ([] : Cmd))
        (some ("how many pods are there".data))).summCalls = 1 := by
  decide

/-- C3 amended: a missing query or an empty query string is rejected with
400 "No query provided" before any external call (no synthesis, gateway or
summarization call is made); a whitespace-only query — empty after trimming
— is not rejected (see the counterexample). -/
theorem create_query_rejects_missing_or_empty {σ : Type} (gw : GatewayModel σ)
    (c : σ) (llm : List Char → Option (List Char))
    (llm2 : List Char → Value → Option (List Char)) (parse : List Char → Cmd)
    (q : Option (List Char)) (h : q = none ∨ q = some []) :
    create_query gw c llm llm2 parse q =
      { resp := .err 400 (.str noQueryMsg), cluster := c, synthCalls := 0
        gatewayCalls := 0, summCalls := 0 } := by
  rcases h with rfl | rfl <;> simp [create_query]

/-- C3 witness: the empty query string is rejected with no calls made. -/
theorem create_query_rejects_missing_or_empty_witness :
    create_query gwPing 0 (fun _ => none) (fun _ _ => none) (fun _ => ([] : Cmd)) (some []) =
      { resp := HttpResp.err 400 (Value.str noQueryMsg), cluster := 0, synthCalls := 0
        gatewayCalls := 0, summCalls := 0 } :=
  create_query_rejects_missing_or_empty gwPing 0 _ _ _ (some []) (Or.inr rfl)

/-- C3 counterexample: a whitespace-only question — empty after trimming —
is not classified as an invalid request: the synthesis model is called (an
external call) and the failure surfaced is the synthesis one, not
InvalidRequest. -/
theorem whitespace_query_not_rejected :
    pyStrip (" ".data) = [] ∧
    (create_query gwPing 0 (fun _ => none) (fun _ _ => none) (fun _ => ([] : Cmd))
        (some (" ".data))).synthCalls = 1 ∧
    (create_query gwPing 0 (fun _ => none) (fun _ _ => none) (fun _ => ([] : Cmd))
        (some (" ".data))).resp = HttpResp.err 500 (Value.str genFailMsg) := by
  decide

/-- A nonempty list is not `isEmpty`. -/
lemma isEmpty_false_of_ne_nil {l : List Char} (h : l ≠ []) : l.isEmpty = false := by
  cases l with
  | nil => exact absurd rfl h
  | cons a as => rfl

/-- The fixed summarizer exception string contains the "Error" marker. -/
lemma formatErr_has_error : hasSub errChars formatErrMsg = true := by decide

/-- C2 amended: synthesis failures and summarization failures are surfaced
to the caller as error responses, and an execution failure is surfaced
if and only if the value of the executor contains the substring "Error": the
generic-exception string is surfaced, but an AttributeError failure and a
missing-result execution produce strings without that marker and flow on to
the summarizer (see the counterexample). -/
theorem stage_failure_surfacing {σ : Type} (gw : GatewayModel σ) (c : σ)
    (llm : List Char → Option (List Char)) (llm2 : List Char → Value → Option (List Char))
    (parse : List Char → Cmd) (q t : List Char) (r : ExecOutcome σ)
    (hq : q ≠ [])
    (hr : execute_generated_command gw c (parse (cleanCommand (pyStrip t))) = r) :
    (llm q = none →
      create_query gw c llm llm2 parse (some q) =
        { resp := .err 500 (.str genFailMsg), cluster := c, synthCalls := 1
          gatewayCalls := 0, summCalls := 0 }) ∧
    (llm q = some t → pyStrip t ≠ [] → containsError r.value = true →
      create_query gw c llm llm2 parse (some q) =
        { resp := .err 500 r.value, cluster := r.cluster, synthCalls := 1
          gatewayCalls := r.gatewayCalls, summCalls := 0 }) ∧
    (llm q = some t → pyStrip t ≠ [] → containsError r.value = false →
      llm2 q r.value = none →
      create_query gw c llm llm2 parse (some q) =
        { resp := .err 500 (.str formatErrMsg), cluster := r.cluster, synthCalls := 1
          gatewayCalls := r.gatewayCalls, summCalls := 1 }) := by
  have hqe : q.isEmpty = false := isEmpty_false_of_ne_nil hq
  refine ⟨?_, ?_, ?_⟩
  · intro hs
    simp [create_query, generate_kubernetes_command, hs, hqe]
  · intro hs hst hce
    have hste : (pyStrip t).isEmpty = false := isEmpty_false_of_ne_nil hst
    simp [create_query, generate_kubernetes_command, hs, hqe, hste, hr, hce]
  · intro hs hst hce hsum
    have hste : (pyStrip t).isEmpty = false := isEmpty_false_of_ne_nil hst
    simp [create_query, generate_kubernetes_command, format_result_with_gpt, hs, hqe,
      hste, hr, hce, hsum, formatErr_has_error]

/-- A concrete gateway whose client exposes every method. -/
def gwOpen : GatewayModel Nat :=
  { capabilities := ["list_namespace".data]
    hasMethod := fun _ => true
    run := fun _ _ s => (.str ("ok".data), s)
    duration := fun _ => 0
    deadline := 10 }

/-- C2 witness: a command raising a generic exception produces the
"Error executing command: ..." value, which is surfaced as a 500 with no
summarization call. -/
theorem stage_failure_surfacing_witness :
    create_query gwOpen 0 (fun _ => some ("raise boom".data)) (fun _ _ => none)
        (fun _ => [Stmt.raiseMsg ("boom".data)]) (some ("is the cluster healthy".data)) =
      { resp := HttpResp.err 500 (Value.str (errExecHead ++ "boom".data)), cluster := 0
        synthCalls := 1, gatewayCalls := 0, summCalls := 0 } :=
  (stage_failure_surfacing gwOpen 0 (fun _ => some ("raise boom".data)) (fun _ _ => none)
      (fun _ => [Stmt.raiseMsg ("boom".data)]) ("is the cluster healthy".data)
      ("raise boom".data)
      (execute_generated_command gwOpen 0 [Stmt.raiseMsg ("boom".data)])
      (by decide) rfl).2.1 rfl (by decide) (by decide)

/-- A concrete gateway whose client exposes no methods, so every call raises
`AttributeError`. -/
def gwNoMethods : GatewayModel Nat :=
  { capabilities := ["list_namespace".data]
    hasMethod := fun _ => false
    run := fun _ _ s => (.str [], s)
    duration := fun _ => 0
    deadline := 10 }

/-- C2 counterexample: an execution failure (AttributeError) does not stop
the pipeline.  The value of the executor is the fixed client-method failure
string, which contains no "Error" marker, so the summarizer is invoked on
the failure value and the caller receives a 200 best-effort answer instead
of a structured error. -/
theorem exec_failure_reaches_summarizer :
    (execute_generated_command gwNoMethods 0
        [Stmt.assignCall resultVar ("read_pod".data) []]).value = Value.str attrErrMsg ∧
    containsError (Value.str attrErrMsg) = false ∧
    (create_query gwNoMethods 0 (fun _ => some ("result = v1.read_pod(mongodb)".data))
        (fun _ _ => some ("It is running".data))
        (fun _ => [Stmt.assignCall resultVar ("read_pod".data) []])
        (some ("is mongodb running".data))).summCalls = 1 ∧
    (create_query gwNoMethods 0 (fun _ => some ("result = v1.read_pod(mongodb)".data))
        (fun _ _ => some ("It is running".data))
        (fun _ => [Stmt.assignCall resultVar ("read_pod".data) []])
        (some ("is mongodb running".data))).resp =
      HttpResp.ok ("is mongodb running".data) ("It is running".data) := by
  decide

/-- C6 amended: the pipeline accepts the string from the Result Summarizer as-is
exactly when it does not contain the substring "Error": such a string
(empty or not) becomes the final answer unchanged, while any string
containing "Error" — including legitimate non-empty answers — is rejected
with a 500 carrying that string. -/
theorem answer_accepted_iff_no_error_marker {σ : Type} (gw : GatewayModel σ) (c : σ)
    (llm : List Char → Option (List Char)) (llm2 : List Char → Value → Option (List Char))
    (parse : List Char → Cmd) (q t a : List Char) (r : ExecOutcome σ)
    (hq : q ≠ []) (hsynth : llm q = some t) (hst : pyStrip t ≠ [])
    (hr : execute_generated_command gw c (parse (cleanCommand (pyStrip t))) = r)
    (hce : containsError r.value = false)
    (ha : format_result_with_gpt llm2 q r.value = a) :
    (hasSub errChars a = false →
      (create_query gw c llm llm2 parse (some q)).resp = HttpResp.ok q a) ∧
    (hasSub errChars a = true →
      (create_query gw c llm llm2 parse (some q)).resp = HttpResp.err 500 (Value.str a)) := by
  have hqe : q.isEmpty = false := isEmpty_false_of_ne_nil hq
  have hste : (pyStrip t).isEmpty = false := isEmpty_false_of_ne_nil hst
  constructor
  · intro hok
    simp [create_query, generate_kubernetes_command, hsynth, hqe, hste, hr, hce, ha, hok]
  · intro herr
    simp [create_query, generate_kubernetes_command, hsynth, hqe, hste, hr, hce, ha, herr]

/-- A concrete gateway returning a fixed count. -/
def gwCount : GatewayModel Nat :=
  { capabilities := ["list_namespace".data]
    hasMethod := fun m => m == "list_namespace".data
    run := fun _ _ s => (.str ("3".data), s)
    duration := fun _ => 0
    deadline := 10 }

/-- C6 witness: a summarizer answer without the "Error" marker is returned
as-is as the final answer. -/
theorem answer_accepted_iff_no_error_marker_witness :
    (create_query gwCount 0 (fun _ => some ("result = v1.list_namespace()".data))
        (fun _ _ => some ("Running".data))
        (fun _ => [Stmt.assignCall resultVar ("list_namespace".data) []])
        (some ("status".data))).resp = HttpResp.ok ("status".data) ("Running".data) :=
  (answer_accepted_iff_no_error_marker gwCount 0
      (fun _ => some ("result = v1.list_namespace()".data))
      (fun _ _ => some ("Running".data))
      (fun _ => [Stmt.assignCall resultVar ("list_namespace".data) []])
      ("status".data) ("result = v1.list_namespace()".data) ("Running".data)
      (execute_generated_command gwCount 0
        [Stmt.assignCall resultVar ("list_namespace".data) []])
      (by decide) rfl (by decide) rfl (by decide) rfl).1 (by decide)

/-- C6 counterexample: a non-empty summarizer string containing "Error" is
not accepted as-is: the pipeline rejects it with a 500, so acceptance does
depend on the content of the string. -/
theorem nonempty_answer_with_error_marker_rejected :
    ("ErrorBudget is fine".data ≠ ([] : List Char)) ∧
    (create_query gwCount 0 (fun _ => some ("result = v1.list_namespace()".data))
        (fun _ _ => some ("ErrorBudget is fine".data))
        (fun _ => [Stmt.assignCall resultVar ("list_namespace".data) []])
        (some ("status of the error budget".data))).resp =
      HttpResp.err 500 (Value.str ("ErrorBudget is fine".data)) := by
  decide
